import Mathlib

/-!
Verification development for the futures-typesafe crate.

The crate bridges two models of futures:
* the ownership-transferring model (trait Future in src/lib.rs): poll consumes
  the future value and returns Poll = Success | Failure | NotReady(continuation);
* the reference-based model (the external futures::Future trait): poll mutates
  the future in place and returns Ready | NotReady | an error.

We embed both models shallowly.  A trait implementation becomes a structure
bundling the step function over an explicit state type; a future value is a
state.  Machine-level effects that Rust leaves implicit are made explicit in
the result types: an abrupt failure (panic) becomes a Panicked constructor
carrying the panic message, and undefined behaviour (the unchecked operations
of the internal UnsafeFuture interface) becomes a UB constructor, so that
absence of UB is a provable statement rather than an assumption.

The dynamically-dispatched box inside FutureObject is semantically transparent
(Box::new and dynamic dispatch do not alter behaviour), so the erasure
container is modelled by carrying the erased state type as a type parameter
together with the step function that the vtable would dispatch to.
-/

/-- Result of one reference-based poll, modelling futures::Poll (that is,
Result of Async over the error type), extended with Panicked and UB outcomes
so that the unchecked internal interface can be modelled faithfully. -/
inductive FPoll (I E : Type) : Type where
  | Ready (item : I)
  | NotReady
  | Error (err : E)
  | Panicked (msg : String)
  | UB
  deriving DecidableEq

/-- The Poll enum of src/lib.rs: result of one ownership-transferring poll.
NotReady hands back a continuation future value.  Panicked and UB are the
model's explicit effect constructors (see the module comment). -/
inductive Poll (σ I E : Type) : Type where
  | Success (item : I)
  | Failure (err : E)
  | NotReady (fut : σ)
  | Panicked (msg : String)
  | UB
  deriving DecidableEq

/-- The ownership-transferring Future trait of src/lib.rs: an implementation
is a step function consuming a future value (a state of type sigma) and
producing a Poll. -/
structure Future (σ I E : Type) : Type where
  poll : σ → Poll σ I E

/-- The external reference-based futures::Future trait: poll borrows the
future mutably, modelled as explicit state passing. -/
structure FuturesFuture (σ I E : Type) : Type where
  poll : σ → FPoll I E × σ

/-- The Glue enum of src/lib.rs: either a live ownership-transferring future
value or the sentinel left behind after resolution. -/
inductive Glue (σ : Type) : Type where
  | Valid (fut : σ)
  | Invalid
  deriving DecidableEq

/-- The default method glue of the Future trait: wraps the future value in
Glue::Valid. -/
def Future.glue {σ : Type} (s : σ) : Glue σ :=
  Glue.Valid s

/-- The futures::Future impl for Glue (src/lib.rs poll).  The state is first
replaced by Invalid (mem::replace); polling an Invalid value panics with the
source's message; otherwise the inner future is polled and Valid is restored
only on NotReady.  An inner panic or inner UB propagates with the state left
at Invalid, exactly as the unwinding leaves the Rust value. -/
def Glue.poll {σ I E : Type} (F : Future σ I E) (g : Glue σ) : FPoll I E × Glue σ :=
  match g with
  | Glue.Invalid => (FPoll.Panicked ("Poll called on resolved Future!"), Glue.Invalid)
  | Glue.Valid fut =>
    match F.poll fut with
    | Poll.Success val => (FPoll.Ready val, Glue.Invalid)
    | Poll.Failure e => (FPoll.Error e, Glue.Invalid)
    | Poll.NotReady f => (FPoll.NotReady, Glue.Valid f)
    | Poll.Panicked m => (FPoll.Panicked m, Glue.Invalid)
    | Poll.UB => (FPoll.UB, Glue.Invalid)

/-- The internal UnsafeFuture trait of src/future_object.rs: an
implementation is a reference-based step function on its state, whose result
may be the UB effect when its unchecked precondition is violated. -/
def UnsafeFuture (σ I E : Type) : Type :=
  σ → FPoll I E × σ

/-- Constructor TSFuture::new: the nullable holder starts Some to mark the
future unresolved. -/
def TSFuture.new {σ : Type} (f : σ) : Option σ :=
  some f

/-- The UnsafeFuture impl for TSFuture (src/future_object.rs).  The holder is
taken (left None), the taken contents are unchecked-unwrapped (UB when the
holder was empty), the inner future is polled, and on NotReady the
continuation is re-inserted, asserting via unchecked_unwrap_none that the
slot was still empty (UB otherwise).  On Success, Failure and on an inner
panic the holder stays None. -/
def TSFuture.poll {σ I E : Type} (F : Future σ I E) : UnsafeFuture (Option σ) I E :=
  fun slot =>
    let taken := slot
    let slotAfterTake : Option σ := none
    match taken with
    | none => (FPoll.UB, slotAfterTake)
    | some fut =>
      match F.poll fut with
      | Poll.Success item => (FPoll.Ready item, slotAfterTake)
      | Poll.Failure e => (FPoll.Error e, slotAfterTake)
      | Poll.NotReady f =>
        match slotAfterTake with
        | some _ => (FPoll.UB, some f)
        | none => (FPoll.NotReady, some f)
      | Poll.Panicked m => (FPoll.Panicked m, slotAfterTake)
      | Poll.UB => (FPoll.UB, slotAfterTake)

/-- Constructor TUFuture::new. -/
def TUFuture.new {σ : Type} (f : σ) : σ :=
  f

/-- The UnsafeFuture impl for TUFuture (src/future_object.rs): a direct
passthrough to the wrapped reference-based future's poll. -/
def TUFuture.poll {σ I E : Type} (R : FuturesFuture σ I E) : UnsafeFuture σ I E :=
  fun s => R.poll s

/-- The FutureObject erasure container of src/future_object.rs: a boxed
dynamically-dispatched UnsafeFuture instance, modelled as the dispatched step
function together with the current state of the erased type tau. -/
structure FutureObject (τ I E : Type) : Type where
  stepFn : UnsafeFuture τ I E
  st : τ

/-- FutureObject::from_type_safe_future: wraps an ownership-transferring
future in TSFuture and boxes it. -/
def FutureObject.from_type_safe_future {σ I E : Type} (F : Future σ I E) (fut : σ) :
    FutureObject (Option σ) I E :=
  ⟨TSFuture.poll F, TSFuture.new fut⟩

/-- FutureObject::from_type_unsafe_future: wraps a reference-based future in
TUFuture and boxes it. -/
def FutureObject.from_type_unsafe_future {σ I E : Type} (R : FuturesFuture σ I E) (fut : σ) :
    FutureObject σ I E :=
  ⟨TUFuture.poll R, TUFuture.new fut⟩

/-- The Future impl for FutureObject (src/future_object.rs poll): consumes
the container, polls the boxed instance once, and rebuilds a container only
in the NotReady case. -/
def FutureObject.poll {τ I E : Type} (fo : FutureObject τ I E) :
    Poll (FutureObject τ I E) I E :=
  match fo.stepFn fo.st with
  | (FPoll.Ready item, _) => Poll.Success item
  | (FPoll.NotReady, s') => Poll.NotReady ⟨fo.stepFn, s'⟩
  | (FPoll.Error e, _) => Poll.Failure e
  | (FPoll.Panicked m, _) => Poll.Panicked m
  | (FPoll.UB, _) => Poll.UB

/-- The Future trait implementation bundled for FutureObject, so a container
can itself be used wherever an ownership-transferring future is expected. -/
def FutureObject.instFuture (τ I E : Type) : Future (FutureObject τ I E) I E :=
  ⟨FutureObject.poll⟩

/-- The futures::Future implementation bundled for Glue over a given
ownership-transferring implementation. -/
def Glue.instFuturesFuture {σ I E : Type} (F : Future σ I E) : FuturesFuture (Glue σ) I E :=
  ⟨Glue.poll F⟩

/-!
Driving a future to completion.  A run state is either a still-pending future
value or a terminal observation; a driver loop repeatedly steps until a
terminal observation is produced, which is then absorbing.  The observation
function forgets the state type, so runs of different embeddings can be
compared step by step.
-/

/-- Terminal observation of a run: the outcome a driver loop sees when the
future stops being pending. -/
inductive TermObs (I E : Type) : Type where
  | Resolved (item : I)
  | Failed (err : E)
  | Panicked (msg : String)
  | UB
  deriving DecidableEq

/-- State of a driver loop: still running with a future value, or finished
with a terminal observation. -/
inductive RunState (σ I E : Type) : Type where
  | running (fut : σ)
  | finished (t : TermObs I E)
  deriving DecidableEq

/-- Observation of a run state: none while pending, the terminal observation
once finished.  This is the per-step observable used to compare runs. -/
def RunState.obs {σ I E : Type} : RunState σ I E → Option (TermObs I E)
  | RunState.running _ => none
  | RunState.finished t => some t

/-- Transport of run states along a map of future values. -/
def RunState.map {σ σ' I E : Type} (φ : σ → σ') : RunState σ I E → RunState σ' I E
  | RunState.running s => RunState.running (φ s)
  | RunState.finished t => RunState.finished t

/-- One driver step of an ownership-transferring future. -/
def stepRun {σ I E : Type} (F : Future σ I E) : RunState σ I E → RunState σ I E
  | RunState.running s =>
    match F.poll s with
    | Poll.Success i => RunState.finished (TermObs.Resolved i)
    | Poll.Failure e => RunState.finished (TermObs.Failed e)
    | Poll.NotReady f => RunState.running f
    | Poll.Panicked m => RunState.finished (TermObs.Panicked m)
    | Poll.UB => RunState.finished TermObs.UB
  | RunState.finished t => RunState.finished t

/-- Driver loop on an ownership-transferring future: the run state after n
steps starting from future value s. -/
def runN {σ I E : Type} (F : Future σ I E) (s : σ) : Nat → RunState σ I E
  | 0 => RunState.running s
  | n + 1 => stepRun F (runN F s n)

/-- One driver step of a reference-based future. -/
def rstepRun {σ I E : Type} (R : FuturesFuture σ I E) : RunState σ I E → RunState σ I E
  | RunState.running s =>
    match R.poll s with
    | (FPoll.Ready i, _) => RunState.finished (TermObs.Resolved i)
    | (FPoll.NotReady, s') => RunState.running s'
    | (FPoll.Error e, _) => RunState.finished (TermObs.Failed e)
    | (FPoll.Panicked m, _) => RunState.finished (TermObs.Panicked m)
    | (FPoll.UB, _) => RunState.finished TermObs.UB
  | RunState.finished t => RunState.finished t

/-- Driver loop on a reference-based future: the run state after n steps. -/
def rrunN {σ I E : Type} (R : FuturesFuture σ I E) (s : σ) : Nat → RunState σ I E
  | 0 => RunState.running s
  | n + 1 => rstepRun R (rrunN R s n)

/-- Transport of ownership-transferring poll results along a map of future
values. -/
def Poll.mapFut {σ σ' I E : Type} (φ : σ → σ') : Poll σ I E → Poll σ' I E
  | Poll.Success i => Poll.Success i
  | Poll.Failure e => Poll.Failure e
  | Poll.NotReady f => Poll.NotReady (φ f)
  | Poll.Panicked m => Poll.Panicked m
  | Poll.UB => Poll.UB

/-- Reading a reference-based poll result (with its next state) as an
ownership-transferring poll result along a map of future values. -/
def rpollAsPoll {σ σ' I E : Type} (φ : σ → σ') : FPoll I E × σ → Poll σ' I E
  | (FPoll.Ready i, _) => Poll.Success i
  | (FPoll.NotReady, s') => Poll.NotReady (φ s')
  | (FPoll.Error e, _) => Poll.Failure e
  | (FPoll.Panicked m, _) => Poll.Panicked m
  | (FPoll.UB, _) => Poll.UB

/-- Reading an ownership-transferring poll result as a reference-based poll
result with next state: the continuation is transported, terminal outcomes
move to the designated dead state. -/
def pollAsRpoll {σ σ' I E : Type} (φ : σ → σ') (dead : σ') : Poll σ I E → FPoll I E × σ'
  | Poll.Success i => (FPoll.Ready i, dead)
  | Poll.Failure e => (FPoll.Error e, dead)
  | Poll.NotReady f => (FPoll.NotReady, φ f)
  | Poll.Panicked m => (FPoll.Panicked m, dead)
  | Poll.UB => (FPoll.UB, dead)

/-!
Concrete futures used to evaluate the general theorems on closed inputs.
-/

/-- Ownership-transferring future that resolves immediately with 42. -/
def succF : Future Nat Nat String :=
  ⟨fun _ => Poll.Success 42⟩

/-- Ownership-transferring future that fails immediately with error E. -/
def failF : Future Nat Nat String :=
  ⟨fun _ => Poll.Failure ("E")⟩

/-- Ownership-transferring future counting its state down to 0, then
resolving with 42: from state n it yields n NotReady results. -/
def countdownF : Future Nat Nat String :=
  ⟨fun n =>
    match n with
    | 0 => Poll.Success 42
    | m + 1 => Poll.NotReady m⟩

/-- Ownership-transferring future whose poll raises an abrupt failure. -/
def panicF : Future Nat Nat String :=
  ⟨fun _ => Poll.Panicked ("boom")⟩

/-- Reference-based future that errors immediately with error E. -/
def errR : FuturesFuture Nat Nat String :=
  ⟨fun n => (FPoll.Error ("E"), n)⟩

/-- Reference-based future counting its state down to 0, then becoming ready
with 7. -/
def countdownR : FuturesFuture Nat Nat String :=
  ⟨fun n =>
    match n with
    | 0 => (FPoll.Ready 7, 0)
    | m + 1 => (FPoll.NotReady, m)⟩

/-!
Helper lemmas: single-step characterisations of each adapter and generic
forward-simulation lemmas for the driver loops.
-/

/-- Observation is invariant under transport of run states. -/
theorem RunState.obs_map {σ σ' I E : Type} (φ : σ → σ') (st : RunState σ I E) :
    (RunState.map φ st).obs = st.obs := by
  cases st <;> rfl

/-- Single-step characterisation of the ownership adapter on an occupied
holder. -/
theorem ts_poll_some {σ I E : Type} (F : Future σ I E) (s : σ) :
    TSFuture.poll F (some s) = pollAsRpoll some none (F.poll s) := by
  cases hp : F.poll s <;> simp [TSFuture.poll, pollAsRpoll, hp]

/-- Single-step characterisation of the container built from an
ownership-transferring future. -/
theorem fo_ts_poll {σ I E : Type} (F : Future σ I E) (s : σ) :
    FutureObject.poll (FutureObject.from_type_safe_future F s) =
      Poll.mapFut (FutureObject.from_type_safe_future F) (F.poll s) := by
  cases hp : F.poll s <;>
    simp [FutureObject.poll, FutureObject.from_type_safe_future, TSFuture.poll,
      TSFuture.new, Poll.mapFut, hp]

/-- Single-step characterisation of the container built from a
reference-based future. -/
theorem fo_tu_poll {σ I E : Type} (R : FuturesFuture σ I E) (s : σ) :
    FutureObject.poll (FutureObject.from_type_unsafe_future R s) =
      rpollAsPoll (FutureObject.from_type_unsafe_future R) (R.poll s) := by
  rcases hp : R.poll s with ⟨r, s'⟩
  cases r <;>
    simp [FutureObject.poll, FutureObject.from_type_unsafe_future, TUFuture.poll,
      TUFuture.new, rpollAsPoll, hp]

/-- Single-step characterisation of the reverse adapter on a Valid state. -/
theorem glue_poll_valid {σ I E : Type} (F : Future σ I E) (s : σ) :
    Glue.poll F (Glue.Valid s) = pollAsRpoll Glue.Valid Glue.Invalid (F.poll s) := by
  cases hp : F.poll s <;> simp [Glue.poll, pollAsRpoll, hp]

/-- Forward simulation, single step: when polling G at transported states
agrees with polling F, the driver steps agree up to transport. -/
theorem stepRun_map {σ σ' I E : Type} (F : Future σ I E) (G : Future σ' I E)
    (φ : σ → σ') (h : ∀ s, G.poll (φ s) = Poll.mapFut φ (F.poll s))
    (st : RunState σ I E) :
    stepRun G (RunState.map φ st) = RunState.map φ (stepRun F st) := by
  cases st with
  | finished t => rfl
  | running s =>
    show stepRun G (RunState.running (φ s)) = _
    cases hp : F.poll s <;>
      simp [stepRun, RunState.map, h s, Poll.mapFut, hp]

/-- Forward simulation for whole runs of two ownership-transferring
futures. -/
theorem runN_map_of_poll {σ σ' I E : Type} (F : Future σ I E) (G : Future σ' I E)
    (φ : σ → σ') (h : ∀ s, G.poll (φ s) = Poll.mapFut φ (F.poll s))
    (s : σ) (n : Nat) :
    runN G (φ s) n = RunState.map φ (runN F s n) := by
  induction n with
  | zero => rfl
  | succ n ih =>
    show stepRun G (runN G (φ s) n) = _
    rw [ih]
    exact stepRun_map F G φ h (runN F s n)

/-- Forward simulation, single step, of a reference-based run by an
ownership-transferring run. -/
theorem stepRun_of_rstep {σ σ' I E : Type} (R : FuturesFuture σ I E)
    (G : Future σ' I E) (φ : σ → σ')
    (h : ∀ s, G.poll (φ s) = rpollAsPoll φ (R.poll s))
    (st : RunState σ I E) :
    stepRun G (RunState.map φ st) = RunState.map φ (rstepRun R st) := by
  cases st with
  | finished t => rfl
  | running s =>
    show stepRun G (RunState.running (φ s)) = _
    rcases hp : R.poll s with ⟨r, s'⟩
    cases r <;> simp [stepRun, rstepRun, RunState.map, h s, rpollAsPoll, hp]

/-- Forward simulation for whole runs: an ownership-transferring run tracks a
reference-based run. -/
theorem runN_of_rrunN {σ σ' I E : Type} (R : FuturesFuture σ I E)
    (G : Future σ' I E) (φ : σ → σ')
    (h : ∀ s, G.poll (φ s) = rpollAsPoll φ (R.poll s))
    (s : σ) (n : Nat) :
    runN G (φ s) n = RunState.map φ (rrunN R s n) := by
  induction n with
  | zero => rfl
  | succ n ih =>
    show stepRun G (runN G (φ s) n) = _
    rw [ih]
    exact stepRun_of_rstep R G φ h (rrunN R s n)

/-- Forward simulation, single step, of an ownership-transferring run by a
reference-based run. -/
theorem rstep_of_step {σ σ' I E : Type} (F : Future σ I E)
    (R : FuturesFuture σ' I E) (φ : σ → σ') (dead : σ')
    (h : ∀ s, R.poll (φ s) = pollAsRpoll φ dead (F.poll s))
    (st : RunState σ I E) :
    rstepRun R (RunState.map φ st) = RunState.map φ (stepRun F st) := by
  cases st with
  | finished t => rfl
  | running s =>
    show rstepRun R (RunState.running (φ s)) = _
    cases hp : F.poll s <;>
      simp [stepRun, rstepRun, RunState.map, h s, pollAsRpoll, hp]

/-- Forward simulation for whole runs: a reference-based run tracks an
ownership-transferring run. -/
theorem rrunN_of_runN {σ σ' I E : Type} (F : Future σ I E)
    (R : FuturesFuture σ' I E) (φ : σ → σ') (dead : σ')
    (h : ∀ s, R.poll (φ s) = pollAsRpoll φ dead (F.poll s))
    (s : σ) (n : Nat) :
    rrunN R (φ s) n = RunState.map φ (runN F s n) := by
  induction n with
  | zero => rfl
  | succ n ih =>
    show rstepRun R (rrunN R (φ s) n) = _
    rw [ih]
    exact rstep_of_step F R φ dead h (runN F s n)

/-!
Claim theorems.
-/

/-- C1: for every ownership-transferring future wrapped into the erasure
container via from_type_safe_future, each step of the driver loop on the
container observes exactly what the driver loop on the unwrapped future
observes: the same Pending prefix and the same terminal Resolved or Failed
outcome (panics and UB also propagate unchanged). -/
theorem c1_container_ts_trace_eq {σ I E : Type} (F : Future σ I E) (s : σ) (n : Nat) :
    (runN (FutureObject.instFuture (Option σ) I E)
        (FutureObject.from_type_safe_future F s) n).obs
      = (runN F s n).obs := by
  rw [runN_map_of_poll F (FutureObject.instFuture (Option σ) I E)
      (FutureObject.from_type_safe_future F) (fun t => fo_ts_poll F t) s n,
    RunState.obs_map]

/-- C2: for every reference-based future wrapped into the erasure container
via from_type_unsafe_future, the observed step sequence of the container
equals the sequence of driving the reference-based future directly; moreover
the TUFuture adapter is a stateless passthrough and the container maps its
outcomes 1:1 (Ready to Success, NotReady to NotReady, error to Failure) with
no error translation. -/
theorem c2_container_tu_trace_eq {σ I E : Type} (R : FuturesFuture σ I E) (s : σ) (n : Nat) :
    (runN (FutureObject.instFuture σ I E)
        (FutureObject.from_type_unsafe_future R s) n).obs
      = (rrunN R s n).obs
    ∧ TUFuture.poll R s = R.poll s
    ∧ FutureObject.poll (FutureObject.from_type_unsafe_future R s)
        = rpollAsPoll (FutureObject.from_type_unsafe_future R) (R.poll s) := by
  refine ⟨?_, rfl, fo_tu_poll R s⟩
  rw [runN_of_rrunN R (FutureObject.instFuture σ I E)
      (FutureObject.from_type_unsafe_future R) (fun t => fo_tu_poll R t) s n,
    RunState.obs_map]

/-- C3: the reverse adapter is constructed in Valid, and polling a Valid
state steps the contained future: Success resolves to Ready with the state
left Invalid, Failure surfaces the error with the state left Invalid, and
NotReady restores Valid with the continuation and reports NotReady. -/
theorem c3_glue_state_machine {σ I E : Type} (F : Future σ I E) (s : σ) :
    Future.glue s = Glue.Valid s
    ∧ (∀ v, F.poll s = Poll.Success v →
        Glue.poll F (Glue.Valid s) = (FPoll.Ready v, Glue.Invalid))
    ∧ (∀ e, F.poll s = Poll.Failure e →
        Glue.poll F (Glue.Valid s) = (FPoll.Error e, Glue.Invalid))
    ∧ (∀ f, F.poll s = Poll.NotReady f →
        Glue.poll F (Glue.Valid s) = (FPoll.NotReady, Glue.Valid f)) := by
  refine ⟨rfl, ?_, ?_, ?_⟩ <;> intro x hx <;> simp [Glue.poll, hx]

/-- Witness for C3: the three branches evaluated on concrete futures. -/
theorem c3_glue_state_machine_witness :
    Glue.poll succF (Glue.Valid 0) = (FPoll.Ready 42, Glue.Invalid)
    ∧ Glue.poll failF (Glue.Valid 0) = (FPoll.Error ("E"), Glue.Invalid)
    ∧ Glue.poll countdownF (Glue.Valid 3) = (FPoll.NotReady, Glue.Valid 2) :=
  ⟨(c3_glue_state_machine succF 0).2.1 42 rfl,
   (c3_glue_state_machine failF 0).2.2.1 ("E") rfl,
   (c3_glue_state_machine countdownF 3).2.2.2 2 rfl⟩

/-- Counterexample for C4 as stated: polling the reverse adapter in the
Invalid state does panic deterministically, but the message is the source's
"Poll called on resolved Future!", not the claimed "step invoked on a
resolved future.". -/
theorem c4_message_counterexample :
    (Glue.poll succF (Glue.Invalid : Glue Nat)).1
      = FPoll.Panicked ("Poll called on resolved Future!")
    ∧ (Glue.poll succF (Glue.Invalid : Glue Nat)).1
      ≠ FPoll.Panicked ("step invoked on a resolved future.") :=
  ⟨rfl, by decide⟩

/-- C4 (amended): polling the reverse adapter while Invalid deterministically
raises an abrupt failure with the message "Poll called on resolved Future!"
and leaves the state Invalid; it never silently misbehaves. -/
theorem c4_invalid_poll_panics {σ I E : Type} (F : Future σ I E) :
    Glue.poll F (Glue.Invalid : Glue σ)
      = (FPoll.Panicked ("Poll called on resolved Future!"), Glue.Invalid) :=
  rfl

/-- C5: the container's consuming poll invokes the boxed instance's step
exactly once and maps the result case by case: Ready becomes Success, an
error becomes Failure, and NotReady becomes NotReady carrying a brand-new
container around the continuation state; only the NotReady branch builds a
new container. -/
theorem c5_container_step_cases {τ I E : Type} (fo : FutureObject τ I E) :
    (∀ i s', fo.stepFn fo.st = (FPoll.Ready i, s') →
        FutureObject.poll fo = Poll.Success i)
    ∧ (∀ e s', fo.stepFn fo.st = (FPoll.Error e, s') →
        FutureObject.poll fo = Poll.Failure e)
    ∧ (∀ s', fo.stepFn fo.st = (FPoll.NotReady, s') →
        FutureObject.poll fo = Poll.NotReady ⟨fo.stepFn, s'⟩) :=
  ⟨fun i s' h => by simp [FutureObject.poll, h],
   fun e s' h => by simp [FutureObject.poll, h],
   fun s' h => by simp [FutureObject.poll, h]⟩

/-- Witness for C5: the three branches evaluated on concrete containers. -/
theorem c5_container_step_cases_witness :
    FutureObject.poll (FutureObject.from_type_unsafe_future countdownR 0)
      = Poll.Success 7
    ∧ FutureObject.poll (FutureObject.from_type_unsafe_future errR 5)
      = Poll.Failure ("E")
    ∧ FutureObject.poll (FutureObject.from_type_unsafe_future countdownR 3)
      = Poll.NotReady ⟨TUFuture.poll countdownR, 2⟩ :=
  ⟨(c5_container_step_cases (FutureObject.from_type_unsafe_future countdownR 0)).1 7 0 rfl,
   (c5_container_step_cases (FutureObject.from_type_unsafe_future errR 5)).2.1 ("E") 5 rfl,
   (c5_container_step_cases (FutureObject.from_type_unsafe_future countdownR 3)).2.2 2 rfl⟩

/-- C6: when the wrapped ownership-transferring future's poll raises an
abrupt failure, the adapter's holder ends up empty (None) and the reverse
adapter's state ends up Invalid, because both set the post-resolution state
before invoking the risky inner poll and restore it only on NotReady. -/
theorem c6_panic_leaves_safe_state {σ I E : Type} (F : Future σ I E) (s : σ)
    (m : String) (h : F.poll s = Poll.Panicked m) :
    TSFuture.poll F (some s) = (FPoll.Panicked m, none)
    ∧ Glue.poll F (Glue.Valid s) = (FPoll.Panicked m, Glue.Invalid) := by
  constructor <;> simp [TSFuture.poll, Glue.poll, h]

/-- Witness for C6: a future that panics immediately. -/
theorem c6_panic_leaves_safe_state_witness :
    TSFuture.poll panicF (some 0) = (FPoll.Panicked ("boom"), none)
    ∧ Glue.poll panicF (Glue.Valid 0) = (FPoll.Panicked ("boom"), Glue.Invalid) :=
  c6_panic_leaves_safe_state panicF 0 ("boom") rfl

/-- C7: on an occupied holder (the unresolved case, the only one the internal
interface's precondition allows), the ownership adapter's two unchecked
operations never have their conditions violated: its poll is UB only when the
wrapped future's own poll is UB; moreover the holder invariant holds: after a
NotReady outcome the holder again contains the continuation, and after any
non-NotReady outcome the holder is empty. -/
theorem c7_holder_invariant_unchecked_safe {σ I E : Type} (F : Future σ I E) (s : σ) :
    (F.poll s ≠ Poll.UB → (TSFuture.poll F (some s)).1 ≠ FPoll.UB)
    ∧ (∀ f, F.poll s = Poll.NotReady f →
        TSFuture.poll F (some s) = (FPoll.NotReady, some f))
    ∧ ((TSFuture.poll F (some s)).1 ≠ FPoll.NotReady →
        (TSFuture.poll F (some s)).2 = none) := by
  refine ⟨?_, ?_, ?_⟩
  · intro hne
    cases hp : F.poll s <;> simp [TSFuture.poll, hp]
    exact hne hp
  · intro f hf
    simp [TSFuture.poll, hf]
  · intro hne
    cases hp : F.poll s <;> simp [TSFuture.poll, hp]
    exact hne (by simp [TSFuture.poll, hp])

/-- Witness for C7: evaluated on a countdown future while pending and on an
immediately-resolving future. -/
theorem c7_holder_invariant_unchecked_safe_witness :
    (TSFuture.poll countdownF (some 1)).1 ≠ FPoll.UB
    ∧ TSFuture.poll countdownF (some 1) = (FPoll.NotReady, some 0)
    ∧ (TSFuture.poll succF (some 0)).2 = none :=
  ⟨(c7_holder_invariant_unchecked_safe countdownF 1).1 (by decide),
   (c7_holder_invariant_unchecked_safe countdownF 1).2.1 0 rfl,
   (c7_holder_invariant_unchecked_safe succF 0).2.2 (by decide)⟩

/-- C8: a domain error produced by the wrapped future is surfaced verbatim,
unchanged, through the ownership adapter, through the erasure container built
by either constructor, and through the reverse adapter. -/
theorem c8_errors_verbatim {σ σ' I E : Type} (F : Future σ I E)
    (R : FuturesFuture σ' I E) (s : σ) (t r : σ') (e : E)
    (hF : F.poll s = Poll.Failure e) (hR : R.poll t = (FPoll.Error e, r)) :
    TSFuture.poll F (some s) = (FPoll.Error e, none)
    ∧ FutureObject.poll (FutureObject.from_type_safe_future F s) = Poll.Failure e
    ∧ FutureObject.poll (FutureObject.from_type_unsafe_future R t) = Poll.Failure e
    ∧ Glue.poll F (Glue.Valid s) = (FPoll.Error e, Glue.Invalid) := by
  refine ⟨?_, ?_, ?_, ?_⟩ <;>
    simp [TSFuture.poll, TSFuture.new, TUFuture.poll, TUFuture.new,
      FutureObject.poll, FutureObject.from_type_safe_future,
      FutureObject.from_type_unsafe_future, Glue.poll, hF, hR]

/-- Witness for C8: the error string E surfaced through all four layers. -/
theorem c8_errors_verbatim_witness :
    TSFuture.poll failF (some 0) = (FPoll.Error ("E"), none)
    ∧ FutureObject.poll (FutureObject.from_type_safe_future failF 0) = Poll.Failure ("E")
    ∧ FutureObject.poll (FutureObject.from_type_unsafe_future errR 0) = Poll.Failure ("E")
    ∧ Glue.poll failF (Glue.Valid 0) = (FPoll.Error ("E"), Glue.Invalid) :=
  c8_errors_verbatim failF errR 0 0 0 ("E") rfl rfl

/-- C9: the erasure container itself implements the ownership-transferring
contract, and re-wrapping a container — into another container via
from_type_safe_future, or into the reverse adapter via glue — yields, step by
step, exactly the observations of driving the inner container directly. -/
theorem c9_rewrap_transparent {τ I E : Type} (c : FutureObject τ I E) (n : Nat) :
    (runN (FutureObject.instFuture (Option (FutureObject τ I E)) I E)
        (FutureObject.from_type_safe_future (FutureObject.instFuture τ I E) c) n).obs
      = (runN (FutureObject.instFuture τ I E) c n).obs
    ∧ (rrunN (Glue.instFuturesFuture (FutureObject.instFuture τ I E))
        (Future.glue c) n).obs
      = (runN (FutureObject.instFuture τ I E) c n).obs := by
  constructor
  · rw [runN_map_of_poll (FutureObject.instFuture τ I E)
        (FutureObject.instFuture (Option (FutureObject τ I E)) I E)
        (FutureObject.from_type_safe_future (FutureObject.instFuture τ I E))
        (fun t => fo_ts_poll (FutureObject.instFuture τ I E) t) c n,
      RunState.obs_map]
  · rw [show (Future.glue c : Glue (FutureObject τ I E)) = Glue.Valid c from rfl,
      rrunN_of_runN (FutureObject.instFuture τ I E)
        (Glue.instFuturesFuture (FutureObject.instFuture τ I E))
        Glue.Valid Glue.Invalid
        (fun t => glue_poll_valid (FutureObject.instFuture τ I E) t) c n,
      RunState.obs_map]

/-- C10: a reverse adapter freshly produced by glue is in the Valid state, so
its first poll never raises the resolved-future failure: any panic it reports
is the wrapped future's own, and the call delegates to the wrapped future's
poll exactly once, translating the outcome 1:1. -/
theorem c10_glue_first_poll {σ I E : Type} (F : Future σ I E) (s : σ) :
    (∀ m, (Glue.poll F (Future.glue s)).1 = FPoll.Panicked m →
        F.poll s = Poll.Panicked m)
    ∧ Glue.poll F (Future.glue s) = pollAsRpoll Glue.Valid Glue.Invalid (F.poll s) := by
  constructor
  · intro m hm
    cases hp : F.poll s <;> simp [Glue.poll, Future.glue, hp] at hm ⊢
    exact hm
  · exact glue_poll_valid F s

/-- Witness for C10: the only panic a fresh reverse adapter reports is the
wrapped future's own. -/
theorem c10_glue_first_poll_witness :
    panicF.poll 0 = Poll.Panicked ("boom")
    ∧ Glue.poll countdownF (Future.glue 3)
      = pollAsRpoll Glue.Valid Glue.Invalid (countdownF.poll 3) :=
  ⟨(c10_glue_first_poll panicF 0).1 ("boom") rfl,
   (c10_glue_first_poll countdownF 3).2⟩
